import Mathlib

/-!
Verification of the payment/order core of the ProductLab storefront
(backend/routes/payment.js), shallowly embedded in Lean.

JavaScript numbers are IEEE-754 binary64 values.  Every finite double is a
dyadic rational `sig * 2 ^ exp`, and each arithmetic operation rounds the exact
result to 53 significant bits (round to nearest, ties to even).  We model the
doubles occurring in the payment computations exactly with the `Dy` type below
(normal range only: the amounts involved never reach subnormals or overflow),
and interpret them in `ℚ` via `Dy.toRat` when a claim speaks about exact
money values.
-/

namespace ProductLab

/-- Floor of the base-2 logarithm of a natural number, by structural recursion
on a fuel bound (so the kernel can evaluate it). -/
def log2fuel : Nat → Nat → Nat
  | _, 0 => 0
  | 0, _ => 0
  | fuel + 1, n => if n ≤ 1 then 0 else 1 + log2fuel fuel (n / 2)

/-- Floor of the base-2 logarithm of a natural number. -/
def natLog2 (n : Nat) : Nat := log2fuel n n

/-- A dyadic rational `sig * 2 ^ exp`: the exact value of a finite double. -/
structure Dy where
  sig : ℤ
  exp : ℤ
deriving DecidableEq, Repr

/-- Divide out factors of two from the significand (fuel-bounded loop). -/
def canonAux : Nat → ℤ → ℤ → Dy
  | 0, s, e => ⟨s, e⟩
  | fuel + 1, s, e => if s % 2 = 0 then canonAux fuel (s / 2) (e + 1) else ⟨s, e⟩

/-- Canonical form of a dyadic rational: zero is `⟨0, 0⟩`, otherwise the
significand is odd.  Equal values have equal canonical forms. -/
def Dy.canon (d : Dy) : Dy :=
  if d.sig = 0 then ⟨0, 0⟩ else canonAux d.sig.natAbs d.sig d.exp

/-- The dyadic rational denoting an integer. -/
def Dy.ofInt (n : ℤ) : Dy := Dy.canon ⟨n, 0⟩

/-- Exact sum of two dyadic rationals (aligned to the smaller exponent). -/
def Dy.addExact (a b : Dy) : Dy :=
  let m := min a.exp b.exp
  ⟨a.sig * 2 ^ (a.exp - m).toNat + b.sig * 2 ^ (b.exp - m).toNat, m⟩

/-- Exact product of two dyadic rationals. -/
def Dy.mulExact (a b : Dy) : Dy := ⟨a.sig * b.sig, a.exp + b.exp⟩

/-- Strict order on dyadic rationals, by comparing aligned significands. -/
def Dy.blt (a b : Dy) : Bool :=
  let m := min a.exp b.exp
  decide (a.sig * 2 ^ (a.exp - m).toNat < b.sig * 2 ^ (b.exp - m).toNat)

/-- Nonstrict order on dyadic rationals. -/
def Dy.ble (a b : Dy) : Bool :=
  let m := min a.exp b.exp
  decide (a.sig * 2 ^ (a.exp - m).toNat ≤ b.sig * 2 ^ (b.exp - m).toNat)

/-- Round `a / 2 ^ sh` to the nearest natural number, ties to even. -/
def roundShiftHalfEven (a sh : Nat) : Nat :=
  let q := a / 2 ^ sh
  let r := a % 2 ^ sh
  let h := 2 ^ (sh - 1)
  if r < h then q else if h < r then q + 1 else if q % 2 = 0 then q else q + 1

/-- Round an exact dyadic rational to the nearest binary64 value: keep at most
53 significant bits, rounding to nearest with ties to even (normal range; no
overflow or subnormal handling, which the modelled amounts never reach). -/
def fp64 (d0 : Dy) : Dy :=
  let d := d0.canon
  if d.sig = 0 then ⟨0, 0⟩ else
  let a := d.sig.natAbs
  let b := natLog2 a
  if b ≤ 52 then d else
  let sh := b - 52
  let q := roundShiftHalfEven a sh
  Dy.canon ⟨if d.sig < 0 then -(q : ℤ) else (q : ℤ), d.exp + sh⟩

/-- IEEE-754 binary64 addition: exact sum, then rounding. -/
def fadd (a b : Dy) : Dy := fp64 (a.addExact b)

/-- IEEE-754 binary64 multiplication: exact product, then rounding. -/
def fmul (a b : Dy) : Dy := fp64 (a.mulExact b)

/-- Whether `n / d < 2 ^ e`, using only integer arithmetic. -/
def ratLtPow2 (n d : ℕ) (e : ℤ) : Bool :=
  decide (n * 2 ^ (-e).toNat < d * 2 ^ e.toNat)

/-- The integer e with `2 ^ e ≤ n / d < 2 ^ (e + 1)`, for positive n, d. -/
def ratFloorLog2 (n d : ℕ) : ℤ :=
  let e0 : ℤ := (natLog2 n : ℤ) - (natLog2 d : ℤ)
  if ratLtPow2 n d (e0 - 1) then e0 - 2
  else if ratLtPow2 n d e0 then e0 - 1
  else if ratLtPow2 n d (e0 + 1) then e0
  else e0 + 1

/-- Round `n / d` to the nearest natural number, ties to even. -/
def divRoundHalfEven (n d : ℕ) : ℕ :=
  let q := n / d
  let r := n % d
  if 2 * r < d then q else if d < 2 * r then q + 1 else if q % 2 = 0 then q else q + 1

/-- The binary64 value denoted by the decimal literal `m / 10 ^ k`: the double
nearest to that rational (ties to even).  Computes a 53-bit significand by
scaling the fraction into `[2 ^ 52, 2 ^ 53)` and rounding. -/
def decToF64 (m : ℕ) (k : ℕ) : Dy :=
  if m = 0 then ⟨0, 0⟩ else
  let e := ratFloorLog2 m (10 ^ k)
  let t : ℤ := 52 - e
  let n := m * 2 ^ t.toNat
  let d := 10 ^ k * 2 ^ (-t).toNat
  Dy.canon ⟨(divRoundHalfEven n d : ℤ), e - 52⟩

/-- The double denoted by the JavaScript literal `0.1`. -/
def js01 : Dy := decToF64 1 1

/-- The exact rational value of a dyadic rational. -/
def Dy.toRat (d : Dy) : ℚ :=
  if 0 ≤ d.exp then (d.sig : ℚ) * 2 ^ d.exp.toNat else (d.sig : ℚ) / 2 ^ (-d.exp).toNat

/-- Floor of a dyadic rational, as used by `Math.floor` on doubles. -/
def Dy.floor (d : Dy) : ℤ :=
  if 0 ≤ d.exp then d.sig * 2 ^ d.exp.toNat else Int.fdiv d.sig (2 ^ (-d.exp).toNat)

/-- The JavaScript `Math.round`: `floor(x + 0.5)`, the addition being exact
here because 0.5 and the scaled amounts are dyadic. -/
def jsRound (d : Dy) : ℤ := (fadd d ⟨1, -1⟩).floor

/-!
Data model.  `models/Order.js` stores an Order document with owner, line
items, totals, shipping address, payment method and the two status fields;
the payment routes additionally write the Razorpay references.  Ids (Mongo
ObjectIds) are modelled as strings, JS numbers as `Dy`.
-/

/-- The `paymentStatus` field of an Order (`pending`/`completed`/`failed`). -/
inductive PaymentStatus where
  | pending
  | completed
  | failed
deriving DecidableEq, Repr

/-- The fulfilment `status` field of an Order; the payment routes only ever
write `pending` and `processing`. -/
inductive OrderStatus where
  | pending
  | processing
deriving DecidableEq, Repr

/-- A line item of a cart/order: unit price and quantity are JS numbers. -/
structure OrderItem where
  name : String
  price : Dy
  quantity : Dy
deriving DecidableEq, Repr

/-- A shipping address with its required fields. -/
structure ShippingAddress where
  fullName : String
  street : String
  city : String
  state : String
  postalCode : String
  country : String
deriving DecidableEq, Repr

/-- An Order document as persisted by the payment routes. -/
structure Order where
  user : String
  items : List OrderItem
  totalAmount : Dy
  shippingAddress : ShippingAddress
  paymentMethod : String
  paymentStatus : PaymentStatus
  status : OrderStatus
  razorpayOrderId : Option String := none
  razorpayPaymentId : Option String := none
  razorpaySignature : Option String := none
  upiVPA : Option String := none
deriving DecidableEq, Repr

/-- The Order store: documents keyed by id.  `Order.findById` and
`order.save()` of the source become lookup and overwrite-by-id. -/
abbrev Store := List (String × Order)

/-- `Order.findById`: the first document with the given id, if any. -/
def findById (s : Store) (id : String) : Option Order :=
  match s with
  | [] => none
  | (k, o) :: t => if k = id then some o else findById t id

/-- `order.save()` on an existing document: overwrite the document with the
given id in place. -/
def saveOrder (s : Store) (id : String) (o2 : Order) : Store :=
  match s with
  | [] => []
  | (k, o) :: t => if k = id then (k, o2) :: t else (k, o) :: saveOrder t id o2

/-- `order.save()` on a freshly constructed document: append it under a fresh
id. -/
def insertOrder (s : Store) (id : String) (o : Order) : Store := s ++ [(id, o)]

/-- JavaScript truthiness of an optional string: `undefined` and the empty
string are falsy. -/
def jsFalsyS : Option String → Bool
  | none => true
  | some s => s.isEmpty

/-- JavaScript string coercion of a possibly-undefined string, as produced by
the `+` concatenation operator. -/
def jsStr : Option String → String
  | none => "undefined"
  | some s => s

/-!
JSON values and `JSON.stringify`.  `server.js` installs `express.json()`
globally, so by the time the webhook route runs, `req.body` is the parsed
JSON value and the raw request bytes are gone; the route-level
`express.raw(...)` middleware is a no-op on an already-parsed body.  The
webhook handler therefore hashes `JSON.stringify(req.body)`, a
re-serialization of the parsed value, not the raw payload bytes.
-/

/-- A parsed JSON value. -/
inductive Json where
  | null
  | bool (b : Bool)
  | num (n : ℤ)
  | str (s : String)
  | arr (elems : List Json)
  | obj (fields : List (String × Json))

/-- JSON string escaping as performed by `JSON.stringify`. -/
def jsonEscapeChar (c : Char) : String :=
  if c = '"' then "\\\""
  else if c = '\\' then "\\\\"
  else if c = '\n' then "\\n"
  else if c = '\r' then "\\r"
  else if c = '\t' then "\\t"
  else String.singleton c

/-- A JSON string literal with its surrounding quotes. -/
def jsonQuote (s : String) : String :=
  "\"" ++ String.join (s.data.map jsonEscapeChar) ++ "\""

mutual

/-- `JSON.stringify`: compact serialization, object fields in insertion
order, no whitespace. -/
def jsonStringify : Json → String
  | .null => "null"
  | .bool true => "true"
  | .bool false => "false"
  | .num n => toString n
  | .str s => jsonQuote s
  | .arr xs => "[" ++ jsonStringifyArr xs ++ "]"
  | .obj fs => "\x7b" ++ jsonStringifyObj fs ++ "\x7d"
termination_by structural j => j

/-- Comma-separated serialization of JSON array elements. -/
def jsonStringifyArr : List Json → String
  | [] => ""
  | [j] => jsonStringify j
  | j :: js => jsonStringify j ++ "," ++ jsonStringifyArr js
termination_by structural js => js

/-- Comma-separated serialization of JSON object fields. -/
def jsonStringifyObj : List (String × Json) → String
  | [] => ""
  | [(k, j)] => jsonQuote k ++ ":" ++ jsonStringify j
  | (k, j) :: fs => jsonQuote k ++ ":" ++ jsonStringify j ++ "," ++ jsonStringifyObj fs
termination_by structural fs => fs

end

/-- JavaScript property access `j.k` on a parsed JSON value: `undefined`
(here `none`) when the value is not an object or lacks the key. -/
def Json.get? (j : Json) (k : String) : Option Json :=
  match j with
  | .obj fs => (fs.find? (fun kv => kv.1 == k)).map (fun kv => kv.2)
  | _ => none

/-- The string content of a JSON value, when it is a string. -/
def jsonStrField : Option Json → Option String
  | some (.str s) => some s
  | _ => none

/-!
Route handlers of `backend/routes/payment.js`.  Each handler becomes a
function from the request (plus the ambient configuration: the HMAC
primitive of the `crypto` module, the Razorpay key secret, identifiers
returned by the external gateway client) and the store to a response and the
updated store.  The HMAC-SHA256 primitive is kept abstract as a parameter
`hmac : String → String → String` (secret, then message); no claim depends
on the digest internals, only on how the routes build messages and compare
tags.
-/

/-- The JS total computation of `/create-order` and `/create-upi-payment`:
`items.reduce((sum, item) => sum + item.price * item.quantity, 0)`,
in binary64 arithmetic. -/
def jsSubtotal (items : List OrderItem) : Dy :=
  items.foldl (fun sum it => fadd sum (fmul it.price it.quantity)) ⟨0, 0⟩

/-- `const shipping = subtotal > 50 ? 0 : 10`. -/
def jsShipping (subtotal : Dy) : Dy :=
  if Dy.blt (Dy.ofInt 50) subtotal then ⟨0, 0⟩ else Dy.ofInt 10

/-- `const tax = subtotal * 0.1`, in binary64 arithmetic. -/
def jsTax (subtotal : Dy) : Dy := fmul subtotal js01

/-- `const totalAmount = subtotal + shipping + tax`, in binary64 arithmetic. -/
def jsTotalAmount (items : List OrderItem) : Dy :=
  fadd (fadd (jsSubtotal items) (jsShipping (jsSubtotal items))) (jsTax (jsSubtotal items))

/-- The body of `POST /create-order`: cart items (absent when the request has
no `items` array) and the shipping address. -/
structure CreateOrderReq where
  items : Option (List OrderItem)
  shippingAddress : ShippingAddress

/-- Outcome of `POST /create-order` (and of `/create-upi-payment`):
a 400 validation rejection, a 500 on a rejected store write, or the
persisted order together with the amount in minor units sent to the
gateway. -/
inductive CreateOrderResult where
  | validationError
  | serverError
  | created (orderId : String) (order : Order) (amountMinorUnits : ℤ)
deriving DecidableEq, Repr

/-- Modelled from the spec: the Order schema of `models/Order.js`, a file not
present in the repository snapshot.  Per the spec's data model each line item
carries a quantity ≥ 1 and the shipping address has all of its fields
required non-empty; a document violating this is rejected by the store at
`save()` time.  The spec states no constraint on the unit-price snapshot, so
none is imposed here. -/
def orderSchemaValid (o : Order) : Bool :=
  o.items.all (fun it => Dy.ble (Dy.ofInt 1) it.quantity) &&
  !o.shippingAddress.fullName.isEmpty &&
  !o.shippingAddress.street.isEmpty &&
  !o.shippingAddress.city.isEmpty &&
  !o.shippingAddress.state.isEmpty &&
  !o.shippingAddress.postalCode.isEmpty &&
  !o.shippingAddress.country.isEmpty

/-- The Order document constructed by `/create-order` before the gateway
call: pending/pending, method `razorpay`, total computed in binary64. -/
def newOrderDoc (actor : String) (items : List OrderItem) (addr : ShippingAddress) : Order :=
  { user := actor
    items := items
    totalAmount := jsTotalAmount items
    shippingAddress := addr
    paymentMethod := "razorpay"
    paymentStatus := .pending
    status := .pending }

/-- `POST /create-order`.  `newId` is the id Mongo assigns to the new
document and `gwOrderId` the id returned by `razorpay.orders.create` (both
external).  The route validates only that `items` is a non-empty array; it
then persists the pending Order, calls the gateway with
`Math.round(totalAmount * 100)` minor units, and persists the gateway order
id onto the document. -/
def createOrder (s : Store) (newId gwOrderId : String) (actor : String)
    (req : CreateOrderReq) : CreateOrderResult × Store :=
  match req.items with
  | none => (.validationError, s)
  | some items =>
    if items.isEmpty then (.validationError, s)
    else
      let o := newOrderDoc actor items req.shippingAddress
      if orderSchemaValid o then
        let s1 := insertOrder s newId o
        let o2 := { o with razorpayOrderId := some gwOrderId }
        (.created newId o2 (jsRound (fmul o.totalAmount (Dy.ofInt 100))), saveOrder s1 newId o2)
      else (.serverError, s)

/-- The body of `POST /create-upi-payment`: cart items, address and the
payer's UPI VPA. -/
structure CreateUpiReq where
  items : Option (List OrderItem)
  shippingAddress : ShippingAddress
  upiVPA : Option String

/-- The Order document constructed by `/create-upi-payment`: as for
`/create-order` but with method `upi` and the VPA stored. -/
def newUpiOrderDoc (actor : String) (items : List OrderItem) (addr : ShippingAddress)
    (vpa : String) : Order :=
  { newOrderDoc actor items addr with paymentMethod := "upi", upiVPA := some vpa }

/-- `POST /create-upi-payment`: same shape as `/create-order` with an added
truthiness check on `upiVPA`. -/
def createUpiPayment (s : Store) (newId gwOrderId : String) (actor : String)
    (req : CreateUpiReq) : CreateOrderResult × Store :=
  match req.items with
  | none => (.validationError, s)
  | some items =>
    if items.isEmpty then (.validationError, s)
    else if jsFalsyS req.upiVPA then (.validationError, s)
    else
      let o := newUpiOrderDoc actor items req.shippingAddress (jsStr req.upiVPA)
      if orderSchemaValid o then
        let s1 := insertOrder s newId o
        let o2 := { o with razorpayOrderId := some gwOrderId }
        (.created newId o2 (jsRound (fmul o.totalAmount (Dy.ofInt 100))), saveOrder s1 newId o2)
      else (.serverError, s)

/-- The body of `POST /verify-payment`. -/
structure VerifyReq where
  razorpay_order_id : Option String
  razorpay_payment_id : Option String
  razorpay_signature : Option String
  orderId : String

/-- Outcome of `POST /verify-payment`: 400 on missing parameters, 404 on an
unknown order, 200 with the updated order on an authentic signature, or the
400 `Payment verification failed` rejection. -/
inductive VerifyResp where
  | missingParams
  | orderNotFound
  | verified (order : Order)
  | verificationFailed
deriving DecidableEq, Repr

/-- `POST /verify-payment`.  The route runs behind `isAuthenticated`, so an
`actor` (the session user id, `req.user._id`) is always present; the handler
itself never consults it.  The expected signature is
`HMAC-SHA256(RAZORPAY_KEY_SECRET, razorpay_order_id + "|" + razorpay_payment_id)`;
on a match the order becomes completed/processing with the payment id and
signature persisted, on a mismatch `paymentStatus` is set to `failed` and
persisted. -/
def verifyPayment (hmac : String → String → String) (secret : String)
    (s : Store) (actor : String) (req : VerifyReq) : VerifyResp × Store :=
  if jsFalsyS req.razorpay_order_id || jsFalsyS req.razorpay_payment_id ||
      jsFalsyS req.razorpay_signature then
    (.missingParams, s)
  else
    match findById s req.orderId with
    | none => (.orderNotFound, s)
    | some order =>
      let oid := jsStr req.razorpay_order_id
      let pid := jsStr req.razorpay_payment_id
      let sig := jsStr req.razorpay_signature
      let expected := hmac secret (oid ++ "|" ++ pid)
      if expected = sig then
        let o2 := { order with
                    paymentStatus := .completed
                    status := .processing
                    razorpayPaymentId := some pid
                    razorpaySignature := some sig }
        (.verified o2, saveOrder s req.orderId o2)
      else
        let o2 := { order with paymentStatus := .failed }
        (.verificationFailed, saveOrder s req.orderId o2)

/-- The body of `POST /verify-upi/:orderId` (the order id rides in the URL). -/
structure VerifyUpiReq where
  orderId : String
  razorpay_payment_id : Option String
  razorpay_order_id : Option String
  razorpay_signature : Option String

/-- Outcome of `POST /verify-upi/:orderId`: 404 on an unknown order, 400 on a
non-UPI order, 200 with the updated order, or the 400 rejection. -/
inductive VerifyUpiResp where
  | orderNotFound
  | invalidMethod
  | verified (order : Order)
  | verificationFailed
deriving DecidableEq, Repr

/-- `POST /verify-upi/:orderId`.  Unlike `/verify-payment` it checks that the
stored order's `paymentMethod` is `upi` before verifying, performs no
missing-parameter check (absent fields concatenate as the string
`undefined`), and on a signature mismatch responds 400 WITHOUT touching the
order. -/
def verifyUpi (hmac : String → String → String) (secret : String)
    (s : Store) (actor : String) (req : VerifyUpiReq) : VerifyUpiResp × Store :=
  match findById s req.orderId with
  | none => (.orderNotFound, s)
  | some order =>
    if order.paymentMethod ≠ "upi" then (.invalidMethod, s)
    else
      let body := jsStr req.razorpay_order_id ++ "|" ++ jsStr req.razorpay_payment_id
      let expected := hmac secret body
      if req.razorpay_signature = some expected then
        let o2 := { order with
                    paymentStatus := .completed
                    status := .processing
                    razorpayPaymentId := req.razorpay_payment_id
                    razorpaySignature := req.razorpay_signature }
        (.verified o2, saveOrder s req.orderId o2)
      else (.verificationFailed, s)

/-- Outcome of `GET /status/:orderId`. -/
inductive StatusResp where
  | orderNotFound
  | accessDenied
  | ok (paymentStatus : PaymentStatus) (paymentMethod : String)
      (orderStatus : OrderStatus) (totalAmount : Dy)
deriving DecidableEq, Repr

/-- `GET /status/:orderId`: the one payment route with an ownership check
(`order.user.toString() !== req.user._id.toString()` → 403). -/
def getPaymentStatus (s : Store) (actor : String) (orderId : String) : StatusResp :=
  match findById s orderId with
  | none => .orderNotFound
  | some order =>
    if order.user ≠ actor then .accessDenied
    else .ok order.paymentStatus order.paymentMethod order.status order.totalAmount

/-- A webhook delivery as it reaches `POST /webhook`: the raw payload bytes
sent (and signed) by the provider, the `x-razorpay-signature` header, and the
body as parsed by the global `express.json()` middleware. -/
structure WebhookReq where
  rawBody : String
  signature : Option String
  body : Json

/-- Outcome of `POST /webhook`: the 400 signature rejection, the
`\x7bstatus: "ok"\x7d` acknowledgement, or the 500 of a thrown handler error. -/
inductive WebhookResp where
  | sigFailed
  | ok
  | internalError
deriving DecidableEq, Repr

/-- The signature gate of `POST /webhook`: skipped entirely when
`RAZORPAY_WEBHOOK_SECRET` is not configured; otherwise the header must equal
`HMAC-SHA256(secret, JSON.stringify(req.body))` — a hash of the
re-serialized parsed body, not of `rawBody`. -/
def webhookGate (hmac : String → String → String) (webhookSecret : Option String)
    (req : WebhookReq) : Bool :=
  match webhookSecret with
  | none => true
  | some sec => req.signature == some (hmac sec (jsonStringify req.body))

/-- The event dispatch of `POST /webhook` (after the gate).  Reading
`req.body.payload.payment.entity` throws on a missing `payload`/`payment`
(500 via the catch); `payment.captured` completes a not-yet-completed order
and stores the provider payment id; `payment.failed` sets `failed` whenever
the order exists, with no guard on a previously completed order; other
events are logged and acknowledged. -/
def dispatchEvent (s : Store) (body : Json) : WebhookResp × Store :=
  match (body.get? "payload").bind (fun p => p.get? "payment") with
  | none => (.internalError, s)
  | some payment =>
    let entity := payment.get? "entity"
    match jsonStrField (body.get? "event") with
    | some "payment.captured" =>
      match entity with
      | none => (.internalError, s)
      | some ent =>
        match jsonStrField ((ent.get? "notes").bind (fun n => n.get? "orderId")) with
        | some oid =>
          if oid.isEmpty then (.ok, s)
          else
            match findById s oid with
            | some order =>
              if order.paymentStatus ≠ .completed then
                let o2 := { order with
                            paymentStatus := .completed
                            status := .processing
                            razorpayPaymentId := jsonStrField (ent.get? "id") }
                (.ok, saveOrder s oid o2)
              else (.ok, s)
            | none => (.ok, s)
        | none => (.ok, s)
    | some "payment.failed" =>
      match entity with
      | none => (.internalError, s)
      | some ent =>
        match jsonStrField ((ent.get? "notes").bind (fun n => n.get? "orderId")) with
        | some oid =>
          if oid.isEmpty then (.ok, s)
          else
            match findById s oid with
            | some order => (.ok, saveOrder s oid { order with paymentStatus := .failed })
            | none => (.ok, s)
        | none => (.ok, s)
    | _ => (.ok, s)

/-- `POST /webhook`: the signature gate, then the event dispatch. -/
def webhook (hmac : String → String → String) (webhookSecret : Option String)
    (s : Store) (req : WebhookReq) : WebhookResp × Store :=
  if webhookGate hmac webhookSecret req then dispatchEvent s req.body
  else (.sigFailed, s)

/-- The Order persisted by a `created` outcome, if any. -/
def CreateOrderResult.persistedTotal : CreateOrderResult → Option Dy
  | .created _ o _ => some o.totalAmount
  | _ => none

/-!
Concrete fixtures, used to instantiate the abstract HMAC primitive and the
store in closed scenarios.
-/

/-- A concrete stand-in for the abstract HMAC primitive:
`tag = secret ++ ":" ++ message`.  (The claims quantify over the primitive;
closed scenarios pick this one.) -/
def hmacDemo (secret message : String) : String := secret ++ ":" ++ message

/-- A shipping address with every required field non-empty. -/
def addrDemo : ShippingAddress :=
  { fullName := "Ada L"
    street := "1 Main St"
    city := "Pune"
    state := "MH"
    postalCode := "411001"
    country := "IN" }

/-- A card order awaiting payment, owned by `alice`. -/
def orderPending : Order :=
  { user := "alice"
    items := [⟨"Widget", Dy.ofInt 20, Dy.ofInt 1⟩]
    totalAmount := Dy.ofInt 32
    shippingAddress := addrDemo
    paymentMethod := "razorpay"
    paymentStatus := .pending
    status := .pending
    razorpayOrderId := some "rzo_1" }

/-- The order `orderPending` after a successful client-driven verification
with payment id `pay_1`. -/
def orderVerified : Order :=
  { orderPending with
    paymentStatus := .completed
    status := .processing
    razorpayPaymentId := some "pay_1"
    razorpaySignature := some (hmacDemo "sec" "rzo_1|pay_1") }

/-- A card order already completed (a captured, verified payment). -/
def orderCompleted : Order :=
  { orderPending with
    paymentStatus := .completed
    status := .processing
    razorpayPaymentId := some "pay_1"
    razorpaySignature := some "sig1" }

/-- A UPI order awaiting payment, owned by `alice`. -/
def orderUpi : Order :=
  { orderPending with paymentMethod := "upi", upiVPA := some "alice@bank" }

/-- A store holding the single pending order `ord1`. -/
def storePending : Store := [("ord1", orderPending)]

/-- A store holding the single completed order `ord1`. -/
def storeCompleted : Store := [("ord1", orderCompleted)]

/-- A store holding the single pending UPI order `ordU`. -/
def storeUpi : Store := [("ordU", orderUpi)]

/-- The `payload.payment.entity` object of the demo captured event. -/
def entJson : Json :=
  .obj [("id", .str "pay_7"), ("notes", .obj [("orderId", .str "ord1")])]

/-- The `payload.payment` object of the demo captured event. -/
def payJson : Json := .obj [("entity", entJson)]

/-- A `payment.captured` webhook body whose metadata points at `ord1`. -/
def capturedBody : Json :=
  .obj [("event", .str "payment.captured"), ("payload", .obj [("payment", payJson)])]

/-- A `payment.failed` webhook body whose metadata points at `ord1`. -/
def failedBody : Json :=
  .obj [("event", .str "payment.failed"),
        ("payload", .obj [("payment", .obj [("entity",
          .obj [("id", .str "pay_8"),
                ("notes", .obj [("orderId", .str "ord1")])])])])]

/-- An unsigned `payment.captured` delivery. -/
def capturedReq : WebhookReq :=
  { rawBody := jsonStringify capturedBody, signature := none, body := capturedBody }

/-- An unsigned `payment.failed` delivery. -/
def failedReq : WebhookReq :=
  { rawBody := jsonStringify failedBody, signature := none, body := failedBody }

/-- A `payment.captured` delivery whose raw bytes end in a newline (parsed
identically by `express.json()`) and whose signature is the correct HMAC over
exactly those raw bytes. -/
def reqCapRawSigned : WebhookReq :=
  { rawBody := jsonStringify capturedBody ++ "\n"
    signature := some (hmacDemo "whs" (jsonStringify capturedBody ++ "\n"))
    body := capturedBody }

/-- The same delivery signed over the re-serialized body instead of the raw
bytes. -/
def reqCapStrSigned : WebhookReq :=
  { rawBody := jsonStringify capturedBody ++ "\n"
    signature := some (hmacDemo "whs" (jsonStringify capturedBody))
    body := capturedBody }

/-- A `/verify-payment` request for `ord1` carrying the authentic signature. -/
def reqVerifyGood : VerifyReq :=
  { razorpay_order_id := some "rzo_1"
    razorpay_payment_id := some "pay_1"
    razorpay_signature := some (hmacDemo "sec" "rzo_1|pay_1")
    orderId := "ord1" }

/-- A `/verify-payment` request for `ord1` carrying a forged signature. -/
def reqVerifyBad : VerifyReq :=
  { reqVerifyGood with razorpay_signature := some "forged" }

/-- A `/verify-payment` request for `ord1` with a valid signature, as sent by
the non-owner session `mallory`. -/
def reqVerifyMallory : VerifyReq :=
  { razorpay_order_id := some "rzo_1"
    razorpay_payment_id := some "pay_9"
    razorpay_signature := some (hmacDemo "sec" "rzo_1|pay_9")
    orderId := "ord1" }

/-- A `/verify-upi` request for `ordU` carrying a forged signature. -/
def reqUpiBad : VerifyUpiReq :=
  { orderId := "ordU"
    razorpay_payment_id := some "pay_2"
    razorpay_order_id := some "rzo_1"
    razorpay_signature := some "forged" }

/-- A `/verify-upi` request for `ordU` carrying the authentic signature. -/
def reqUpiGood : VerifyUpiReq :=
  { reqUpiBad with razorpay_signature := some (hmacDemo "sec" "rzo_1|pay_2") }

/-- A cart whose single line item has a negative unit price. -/
def itemsNeg : List OrderItem := [⟨"Widget", ⟨-5, 0⟩, ⟨1, 0⟩⟩]

/-- A `/create-order` request carrying the negative-price cart and a fully
populated address. -/
def reqNegPrice : CreateOrderReq := { items := some itemsNeg, shippingAddress := addrDemo }

/-- The order `/create-order` persists for `reqNegPrice`: totalAmount
`9/2` (subtotal −5, shipping 10, tax −0.5). -/
def ordNeg : Order :=
  { newOrderDoc "alice" itemsNeg addrDemo with razorpayOrderId := some "rz9" }

/-- A cart with a single item of price 3 and quantity 1. -/
def items3 : List OrderItem := [⟨"Widget", ⟨3, 0⟩, ⟨1, 0⟩⟩]

/-- A `/create-order` request for the price-3 cart. -/
def req3 : CreateOrderReq := { items := some items3, shippingAddress := addrDemo }

/-!
Theorems.  One theorem per claim (plus shared helper lemmas and, where a
claim theorem carries hypotheses, a closed witness instantiating it).
-/

/-- Overwriting a present document makes the overwritten document the lookup
result. -/
theorem findById_saveOrder (s : Store) (id : String) (o o2 : Order)
    (h : findById s id = some o) :
    findById (saveOrder s id o2) id = some o2 := by
  induction s with
  | nil => simp [findById] at h
  | cons p t ih =>
    obtain ⟨k, w⟩ := p
    by_cases hk : k = id
    · simp [findById, saveOrder, hk]
    · simp only [findById, saveOrder, hk, if_false, reduceIte] at h ⊢
      exact ih h

/-- C1: a `VerifyPayment` request whose signature equals
`HMAC-SHA256(secret, gatewayOrderId ++ "|" ++ gatewayPaymentId)` on an
existing order marks the order completed/processing, persists the gateway
payment id and the signature on it, and returns the updated order. -/
theorem verifyPayment_valid_signature_completes
    (hmac : String → String → String) (secret : String) (s : Store) (actor : String)
    (req : VerifyReq) (oid pid sig : String) (o : Order)
    (h1 : req.razorpay_order_id = some oid)
    (h2 : req.razorpay_payment_id = some pid)
    (h3 : req.razorpay_signature = some sig)
    (e1 : oid.isEmpty = false) (e2 : pid.isEmpty = false) (e3 : sig.isEmpty = false)
    (ho : findById s req.orderId = some o)
    (hsig : sig = hmac secret (oid ++ "|" ++ pid)) :
    verifyPayment hmac secret s actor req =
      (.verified
        { o with
          paymentStatus := .completed
          status := .processing
          razorpayPaymentId := some pid
          razorpaySignature := some sig },
       saveOrder s req.orderId
        { o with
          paymentStatus := .completed
          status := .processing
          razorpayPaymentId := some pid
          razorpaySignature := some sig }) ∧
    findById (verifyPayment hmac secret s actor req).2 req.orderId =
      some
        { o with
          paymentStatus := .completed
          status := .processing
          razorpayPaymentId := some pid
          razorpaySignature := some sig } := by
  subst hsig
  have key : verifyPayment hmac secret s actor req =
      (.verified
        { o with
          paymentStatus := .completed
          status := .processing
          razorpayPaymentId := some pid
          razorpaySignature := some (hmac secret (oid ++ "|" ++ pid)) },
       saveOrder s req.orderId
        { o with
          paymentStatus := .completed
          status := .processing
          razorpayPaymentId := some pid
          razorpaySignature := some (hmac secret (oid ++ "|" ++ pid)) }) := by
    simp [verifyPayment, h1, h2, h3, jsFalsyS, e1, e2, e3, ho, jsStr]
  refine ⟨key, ?_⟩
  rw [key]
  exact findById_saveOrder s req.orderId o _ ho

/-- Closed instantiation of C1: the demo pending order is completed by a
correctly signed verification request. -/
theorem verifyPayment_valid_signature_completes_witness :
    findById storePending "ord1" = some orderPending ∧
    (verifyPayment hmacDemo "sec" storePending "alice" reqVerifyGood =
        (.verified orderVerified, saveOrder storePending "ord1" orderVerified) ∧
      findById (verifyPayment hmacDemo "sec" storePending "alice" reqVerifyGood).2 "ord1" =
        some orderVerified) :=
  ⟨by decide,
   verifyPayment_valid_signature_completes hmacDemo "sec" storePending "alice"
     reqVerifyGood "rzo_1" "pay_1" (hmacDemo "sec" "rzo_1|pay_1") orderPending
     rfl rfl rfl (by decide) (by decide) (by decide) (by decide) rfl⟩

/-- C5: a `VerifyPayment` request whose signature does not match the
recomputed HMAC for an existing order sets the order's `paymentStatus` to
`failed`, persists it, and reports the failure as a normal negative response
(the model's `verificationFailed` value, not a thrown error). -/
theorem verifyPayment_mismatch_sets_failed
    (hmac : String → String → String) (secret : String) (s : Store) (actor : String)
    (req : VerifyReq) (oid pid sig : String) (o : Order)
    (h1 : req.razorpay_order_id = some oid)
    (h2 : req.razorpay_payment_id = some pid)
    (h3 : req.razorpay_signature = some sig)
    (e1 : oid.isEmpty = false) (e2 : pid.isEmpty = false) (e3 : sig.isEmpty = false)
    (ho : findById s req.orderId = some o)
    (hsig : hmac secret (oid ++ "|" ++ pid) ≠ sig) :
    verifyPayment hmac secret s actor req =
      (.verificationFailed, saveOrder s req.orderId { o with paymentStatus := .failed }) ∧
    findById (verifyPayment hmac secret s actor req).2 req.orderId =
      some { o with paymentStatus := .failed } := by
  have key : verifyPayment hmac secret s actor req =
      (.verificationFailed, saveOrder s req.orderId { o with paymentStatus := .failed }) := by
    simp [verifyPayment, h1, h2, h3, jsFalsyS, e1, e2, e3, ho, jsStr, hsig]
  refine ⟨key, ?_⟩
  rw [key]
  exact findById_saveOrder s req.orderId o _ ho

/-- Closed instantiation of C5: a forged signature flips the demo pending
order to `failed` and is reported as a plain verification failure. -/
theorem verifyPayment_mismatch_sets_failed_witness :
    findById storePending "ord1" = some orderPending ∧
    hmacDemo "sec" ("rzo_1" ++ "|" ++ "pay_1") ≠ "forged" ∧
    (verifyPayment hmacDemo "sec" storePending "alice" reqVerifyBad =
        (.verificationFailed,
         saveOrder storePending "ord1" { orderPending with paymentStatus := .failed }) ∧
      findById (verifyPayment hmacDemo "sec" storePending "alice" reqVerifyBad).2 "ord1" =
        some { orderPending with paymentStatus := .failed }) :=
  ⟨by decide, by decide,
   verifyPayment_mismatch_sets_failed hmacDemo "sec" storePending "alice"
     reqVerifyBad "rzo_1" "pay_1" "forged" orderPending
     rfl rfl rfl (by decide) (by decide) (by decide) (by decide) (by decide)⟩

/-- C3 (failing case): `/verify-payment` performs no ownership check.  The
non-owner session `mallory` verifies `alice`'s order: the route mutates the
order to completed and returns the order data to `mallory`, while
`GET /status/:orderId` — the one route with the check — denies the same
actor. -/
theorem verifyPayment_nonowner_mutates_order :
    orderPending.user = "alice" ∧
    ("mallory" : String) ≠ "alice" ∧
    getPaymentStatus storePending "mallory" "ord1" = .accessDenied ∧
    (verifyPayment hmacDemo "sec" storePending "mallory" reqVerifyMallory).1 =
      .verified
        { orderPending with
          paymentStatus := .completed
          status := .processing
          razorpayPaymentId := some "pay_9"
          razorpaySignature := some (hmacDemo "sec" "rzo_1|pay_9") } ∧
    (findById (verifyPayment hmacDemo "sec" storePending "mallory" reqVerifyMallory).2
        "ord1").map Order.paymentStatus = some .completed := by
  decide

/-- C2 (failing case): a `payment.failed` webhook for an already-completed
order downgrades it to `failed` (the dispatch has no completed-guard), and
the handler still acknowledges with the success response. -/
theorem webhook_failed_event_downgrades_completed_order :
    orderCompleted.paymentStatus = .completed ∧
    (webhook hmacDemo none storeCompleted failedReq).1 = .ok ∧
    (findById (webhook hmacDemo none storeCompleted failedReq).2 "ord1").map
      Order.paymentStatus = some .failed := by
  decide

/-- C6 (failing case): for the cart `[⟨price 3, quantity 1⟩]` the persisted
`totalAmount` is the binary64 value `3743617190251725 * 2⁻⁴⁸` — not the
exact `subtotal + shipping + tax = 3 + 10 + 3 × 0.1 = 13.3` the claim
demands, because `3 * 0.1` already rounds in binary64. -/
theorem createOrder_total_has_float_drift :
    (createOrder [] "o6" "rz6" "alice" req3).1.persistedTotal =
      some ⟨3743617190251725, -48⟩ ∧
    Dy.toRat ⟨3743617190251725, -48⟩ ≠ 3 + 10 + 3 * (1 / 10 : ℚ) := by
  refine ⟨by decide, ?_⟩
  norm_num [Dy.toRat, show Int.toNat 48 = 48 from rfl]

/-- The captured-event dispatch: completion conditional on the stored
`paymentStatus`, as a single equation. -/
theorem dispatch_captured
    (s : Store) (body payment ent : Json) (oid : String) (o : Order)
    (hp : (body.get? "payload").bind (fun p => p.get? "payment") = some payment)
    (he : payment.get? "entity" = some ent)
    (hev : jsonStrField (body.get? "event") = some "payment.captured")
    (hoid : jsonStrField ((ent.get? "notes").bind (fun n => n.get? "orderId")) = some oid)
    (hne : oid.isEmpty = false)
    (ho : findById s oid = some o) :
    dispatchEvent s body =
      if o.paymentStatus = .completed then (.ok, s)
      else
        (.ok, saveOrder s oid
          { o with
            paymentStatus := .completed
            status := .processing
            razorpayPaymentId := jsonStrField (ent.get? "id") }) := by
  by_cases hc : o.paymentStatus = .completed
  · simp [dispatchEvent, hp, he, hev, hoid, hne, ho, hc]
  · simp [dispatchEvent, hp, he, hev, hoid, hne, ho, hc]

/-- C7: the `payment.captured` webhook path is idempotent: a found,
not-yet-completed order becomes completed/processing with the provider
payment reference stored; an already-completed order is left untouched while
the handler still acknowledges success; and processing the same delivery
twice leaves exactly the state of processing it once. -/
theorem webhook_captured_idempotent
    (hmac : String → String → String) (secret : Option String) (s : Store)
    (req : WebhookReq) (payment ent : Json) (oid : String) (o : Order)
    (hg : webhookGate hmac secret req = true)
    (hp : (req.body.get? "payload").bind (fun p => p.get? "payment") = some payment)
    (he : payment.get? "entity" = some ent)
    (hev : jsonStrField (req.body.get? "event") = some "payment.captured")
    (hoid : jsonStrField ((ent.get? "notes").bind (fun n => n.get? "orderId")) = some oid)
    (hne : oid.isEmpty = false)
    (ho : findById s oid = some o) :
    (o.paymentStatus ≠ .completed →
      webhook hmac secret s req =
        (.ok, saveOrder s oid
          { o with
            paymentStatus := .completed
            status := .processing
            razorpayPaymentId := jsonStrField (ent.get? "id") })) ∧
    (o.paymentStatus = .completed → webhook hmac secret s req = (.ok, s)) ∧
    (webhook hmac secret (webhook hmac secret s req).2 req).2 =
      (webhook hmac secret s req).2 := by
  have hw : webhook hmac secret s req = dispatchEvent s req.body := by
    simp [webhook, hg]
  have hkey := dispatch_captured s req.body payment ent oid o hp he hev hoid hne ho
  by_cases hc : o.paymentStatus = .completed
  · have hfirst : webhook hmac secret s req = (.ok, s) := by
      rw [hw, hkey, if_pos hc]
    refine ⟨fun h => absurd hc h, fun _ => hfirst, ?_⟩
    rw [hfirst]
    show (webhook hmac secret s req).2 = s
    rw [hfirst]
  · have hfirst : webhook hmac secret s req =
        (.ok, saveOrder s oid
          { o with
            paymentStatus := .completed
            status := .processing
            razorpayPaymentId := jsonStrField (ent.get? "id") }) := by
      rw [hw, hkey, if_neg hc]
    refine ⟨fun _ => hfirst, fun h => absurd h hc, ?_⟩
    rw [hfirst]
    have hw2 : webhook hmac secret
        (saveOrder s oid
          { o with
            paymentStatus := .completed
            status := .processing
            razorpayPaymentId := jsonStrField (ent.get? "id") }) req =
        dispatchEvent
          (saveOrder s oid
            { o with
              paymentStatus := .completed
              status := .processing
              razorpayPaymentId := jsonStrField (ent.get? "id") }) req.body := by
      simp [webhook, hg]
    have ho2 := findById_saveOrder s oid o
      { o with
        paymentStatus := .completed
        status := .processing
        razorpayPaymentId := jsonStrField (ent.get? "id") } ho
    have hkey2 := dispatch_captured
      (saveOrder s oid
        { o with
          paymentStatus := .completed
          status := .processing
          razorpayPaymentId := jsonStrField (ent.get? "id") }) req.body payment ent oid
      { o with
        paymentStatus := .completed
        status := .processing
        razorpayPaymentId := jsonStrField (ent.get? "id") } hp he hev hoid hne ho2
    rw [hw2, hkey2, if_pos rfl]

/-- Closed instantiation of C7: the unsigned demo captured delivery (no
secret configured) completes the pending demo order, and re-delivery leaves
the store unchanged. -/
theorem webhook_captured_idempotent_witness :
    (webhookGate hmacDemo none capturedReq = true ∧
      findById storePending "ord1" = some orderPending ∧
      orderPending.paymentStatus ≠ .completed) ∧
    ((orderPending.paymentStatus ≠ .completed →
      webhook hmacDemo none storePending capturedReq =
        (.ok, saveOrder storePending "ord1"
          { orderPending with
            paymentStatus := .completed
            status := .processing
            razorpayPaymentId := jsonStrField (entJson.get? "id") })) ∧
    (orderPending.paymentStatus = .completed →
      webhook hmacDemo none storePending capturedReq = (.ok, storePending)) ∧
    (webhook hmacDemo none (webhook hmacDemo none storePending capturedReq).2
        capturedReq).2 =
      (webhook hmacDemo none storePending capturedReq).2) :=
  ⟨⟨rfl, by decide, by decide⟩,
   webhook_captured_idempotent hmacDemo none storePending capturedReq payJson entJson
     "ord1" orderPending rfl rfl rfl rfl rfl (by decide) (by decide)⟩

/-- C10: with `RAZORPAY_WEBHOOK_SECRET` unset the webhook handler is exactly
the unguarded event dispatch — any request, unsigned or arbitrarily signed,
reaches the event handling and can complete or fail orders. -/
theorem webhook_no_secret_skips_verification :
    (∀ (hmac : String → String → String) (s : Store) (req : WebhookReq),
        webhook hmac none s req = dispatchEvent s req.body) ∧
    (webhook hmacDemo none storePending capturedReq).1 = .ok ∧
    (findById (webhook hmacDemo none storePending capturedReq).2 "ord1").map
      Order.paymentStatus = some .completed ∧
    (findById (webhook hmacDemo none storeCompleted failedReq).2 "ord1").map
      Order.paymentStatus = some .failed :=
  ⟨fun _ _ _ => rfl, by decide, by decide, by decide⟩

/-- C4 (counterexample): a delivery whose signature is the correct HMAC over
the exact raw payload bytes is rejected, because the handler hashes
`JSON.stringify(req.body)`; a signature over that re-serialization — which
does NOT match the raw bytes — is accepted and dispatched. -/
theorem webhook_signature_not_over_raw_bytes :
    reqCapRawSigned.signature = some (hmacDemo "whs" reqCapRawSigned.rawBody) ∧
    webhook hmacDemo (some "whs") storePending reqCapRawSigned =
      (.sigFailed, storePending) ∧
    reqCapStrSigned.signature ≠ some (hmacDemo "whs" reqCapStrSigned.rawBody) ∧
    (webhook hmacDemo (some "whs") storePending reqCapStrSigned).1 = .ok ∧
    (findById (webhook hmacDemo (some "whs") storePending reqCapStrSigned).2
        "ord1").map Order.paymentStatus = some .completed :=
  ⟨rfl, by decide, by decide, by decide, by decide⟩

/-- C4 (amended): when a webhook secret is configured, a delivery whose
signature header differs from the HMAC of the re-serialized parsed body is
rejected with the 400 status, the store untouched, before any event
dispatch. -/
theorem webhook_mismatch_rejected_before_dispatch
    (hmac : String → String → String) (sec : String) (s : Store) (req : WebhookReq)
    (h : req.signature ≠ some (hmac sec (jsonStringify req.body))) :
    webhook hmac (some sec) s req = (.sigFailed, s) := by
  have hg : webhookGate hmac (some sec) req = false := by
    simp only [webhookGate, beq_eq_false_iff_ne, ne_eq]
    exact h
  simp [webhook, hg]

/-- Closed instantiation of the amended C4: the unsigned captured delivery is
rejected when a secret is configured. -/
theorem webhook_mismatch_rejected_before_dispatch_witness :
    capturedReq.signature ≠ some (hmacDemo "whs" (jsonStringify capturedReq.body)) ∧
    webhook hmacDemo (some "whs") storePending capturedReq = (.sigFailed, storePending) :=
  ⟨by decide,
   webhook_mismatch_rejected_before_dispatch hmacDemo "whs" storePending capturedReq
     (by decide)⟩

/-- C8 (counterexample): `/verify-upi` on a signature mismatch responds with
the failure but does NOT set `paymentStatus = failed` — the order stays
`pending` and the store is unchanged, unlike `/verify-payment`. -/
theorem verifyUpi_mismatch_leaves_order_unchanged :
    verifyUpi hmacDemo "sec" storeUpi "alice" reqUpiBad =
      (.verificationFailed, storeUpi) ∧
    (findById (verifyUpi hmacDemo "sec" storeUpi "alice" reqUpiBad).2 "ordU").map
      Order.paymentStatus = some .pending := by
  decide

/-- C8 (amended): `/verify-upi` checks that the stored order's method is
`upi` (otherwise the invalid-method rejection, with no mutation), recomputes
the HMAC over `gatewayOrderId ++ "|" ++ paymentId` and on a match persists
completed/processing with the payment reference; on a mismatch it responds
with the failure and leaves the order untouched. -/
theorem verifyUpi_amended_algorithm
    (hmac : String → String → String) (secret : String) (s : Store) (actor : String)
    (req : VerifyUpiReq) (o : Order)
    (ho : findById s req.orderId = some o) :
    (o.paymentMethod ≠ "upi" → verifyUpi hmac secret s actor req = (.invalidMethod, s)) ∧
    (o.paymentMethod = "upi" →
      req.razorpay_signature =
        some (hmac secret (jsStr req.razorpay_order_id ++ "|" ++ jsStr req.razorpay_payment_id)) →
      verifyUpi hmac secret s actor req =
        (.verified
          { o with
            paymentStatus := .completed
            status := .processing
            razorpayPaymentId := req.razorpay_payment_id
            razorpaySignature := req.razorpay_signature },
         saveOrder s req.orderId
          { o with
            paymentStatus := .completed
            status := .processing
            razorpayPaymentId := req.razorpay_payment_id
            razorpaySignature := req.razorpay_signature })) ∧
    (o.paymentMethod = "upi" →
      req.razorpay_signature ≠
        some (hmac secret (jsStr req.razorpay_order_id ++ "|" ++ jsStr req.razorpay_payment_id)) →
      verifyUpi hmac secret s actor req = (.verificationFailed, s)) := by
  refine ⟨fun hm => ?_, fun hm hs => ?_, fun hm hs => ?_⟩
  · simp [verifyUpi, ho, hm]
  · simp [verifyUpi, ho, hm, hs]
  · simp [verifyUpi, ho, hm, hs]

/-- Closed instantiation of the amended C8: the authentic signature completes
the demo UPI order. -/
theorem verifyUpi_amended_algorithm_witness :
    (findById storeUpi "ordU" = some orderUpi ∧ orderUpi.paymentMethod = "upi" ∧
      reqUpiGood.razorpay_signature =
        some (hmacDemo "sec"
          (jsStr reqUpiGood.razorpay_order_id ++ "|" ++ jsStr reqUpiGood.razorpay_payment_id))) ∧
    verifyUpi hmacDemo "sec" storeUpi "alice" reqUpiGood =
      (.verified
        { orderUpi with
          paymentStatus := .completed
          status := .processing
          razorpayPaymentId := reqUpiGood.razorpay_payment_id
          razorpaySignature := reqUpiGood.razorpay_signature },
       saveOrder storeUpi "ordU"
        { orderUpi with
          paymentStatus := .completed
          status := .processing
          razorpayPaymentId := reqUpiGood.razorpay_payment_id
          razorpaySignature := reqUpiGood.razorpay_signature }) :=
  ⟨⟨by decide, by decide, by decide⟩,
   (verifyUpi_amended_algorithm hmacDemo "sec" storeUpi "alice" reqUpiGood orderUpi
     (by decide)).2.1 (by decide) (by decide)⟩

/-- C9 (counterexample): a cart whose single item has unit price −5 (with a
valid quantity and a fully populated address) is not rejected: the order is
persisted with `totalAmount = 9/2` and a gateway order for 450 minor units
is created. -/
theorem createOrder_negative_price_persists :
    createOrder [] "o9" "rz9" "alice" reqNegPrice =
      (.created "o9" ordNeg 450,
       saveOrder (insertOrder [] "o9" (newOrderDoc "alice" itemsNeg addrDemo)) "o9" ordNeg) ∧
    findById (createOrder [] "o9" "rz9" "alice" reqNegPrice).2 "o9" = some ordNeg ∧
    ordNeg.totalAmount = ⟨9, -1⟩ ∧
    ordNeg.paymentStatus = .pending := by
  decide

/-- C9 (amended): the only input validation `/create-order` performs before
persisting and calling the gateway is the truthiness/non-emptiness check on
`items`; any schema-acceptable request — whatever the sign of its prices —
is persisted and forwarded to the gateway. -/
theorem createOrder_route_validates_only_items
    (s : Store) (newId gwId actor : String) (req : CreateOrderReq) :
    ((req.items = none ∨ req.items = some []) →
        createOrder s newId gwId actor req = (.validationError, s)) ∧
    (∀ items, req.items = some items → items ≠ [] →
        orderSchemaValid (newOrderDoc actor items req.shippingAddress) = true →
        createOrder s newId gwId actor req =
          (.created newId
            { newOrderDoc actor items req.shippingAddress with razorpayOrderId := some gwId }
            (jsRound (fmul (jsTotalAmount items) (Dy.ofInt 100))),
           saveOrder (insertOrder s newId (newOrderDoc actor items req.shippingAddress)) newId
            { newOrderDoc actor items req.shippingAddress with
              razorpayOrderId := some gwId })) := by
  constructor
  · rintro (h | h) <;> simp [createOrder, h]
  · intro items hi hne hschema
    have hemp : items.isEmpty = false := by
      cases items with
      | nil => exact absurd rfl hne
      | cons a l => rfl
    simp only [newOrderDoc] at hschema
    simp [createOrder, hi, hemp, hschema, newOrderDoc]

/-- Closed instantiation of the amended C9: the negative-price request passes
the route's only check and is persisted. -/
theorem createOrder_route_validates_only_items_witness :
    (reqNegPrice.items = some itemsNeg ∧ itemsNeg ≠ [] ∧
      orderSchemaValid (newOrderDoc "alice" itemsNeg addrDemo) = true) ∧
    createOrder [] "oW" "rzW" "alice" reqNegPrice =
      (.created "oW"
        { newOrderDoc "alice" itemsNeg addrDemo with razorpayOrderId := some "rzW" }
        (jsRound (fmul (jsTotalAmount itemsNeg) (Dy.ofInt 100))),
       saveOrder (insertOrder [] "oW" (newOrderDoc "alice" itemsNeg addrDemo)) "oW"
        { newOrderDoc "alice" itemsNeg addrDemo with razorpayOrderId := some "rzW" }) :=
  ⟨⟨rfl, by decide, by decide⟩,
   (createOrder_route_validates_only_items [] "oW" "rzW" "alice" reqNegPrice).2 itemsNeg
     rfl (by decide) (by decide)⟩

end ProductLab
